import Mathlib

/-!
Meme generator (`script.js`): render, edit-state and gallery pipeline.

A shallow embedding of `src/generateur de meme/script.js`.

* Numbers are rationals (`ℚ`). `scaleDimensionsDouble` is lines 42-51 as they
  run, each division and product rounded to binary64 (`toDouble`);
  `scaleDimensions` is the same lines under exact arithmetic. In the drawing
  code a literal such as `0.2` is the decimal it is written as. `Math.round`
  rounds halves upward.
* The page (edit state, canvas size, 2D context settings, the calls issued on
  the context, the DOM nodes the script writes, `localStorage`) is one record,
  `World`, threaded through every function.
* What the browser decides (whether an image decodes, what a file reads as,
  the UUID, the clock, the PNG text of the canvas) enters as an argument.
* A function that can throw returns an `Outcome`: the world at the point where
  it stopped and the error, if any.
-/

namespace MemeGenerator

/-! ## Values -/

/-- ECMAScript values met by the gallery code: what `JSON.parse` can return,
and `undefined` for a property that is not there. -/
inductive JSValue where
  | undefined
  | null
  | boolean (b : Bool)
  | number (n : ℚ)
  | string (s : String)
  | array (items : List JSValue)
  | object (fields : List (String × JSValue))

/-- The exceptions and rejections the script can meet. -/
inductive JSError where
  | syntaxError
  | typeError
  | imageError
  | quotaExceededError
deriving DecidableEq

/-- A decoded `Image`: its source and natural size. -/
structure Image where
  src : JSValue
  width : ℕ
  height : ℕ

/-- A `{ width, height }` pair of numbers. -/
structure Dimensions where
  width : ℚ
  height : ℚ
deriving DecidableEq

/-- The `state` object (lines 18-26). `fontSize` is the integer read by
`parseInt`. -/
structure EditState where
  baseImage : Option Image
  baseImageUrl : JSValue
  topText : String
  bottomText : String
  fontSize : ℤ
  textColor : String
  outlineColor : String

/-- The drawing settings of `ctx` that the script assigns. An assignment is a
store: the values this script assigns (colour-input values, a line width of at
least 2, fixed keywords) are ones a canvas accepts. -/
structure Context2D where
  fillStyle : String
  strokeStyle : String
  lineWidth : ℚ
  lineJoin : String
  font : String
  textAlign : String
  textBaseline : String

/-- A drawing call issued on `ctx`; the calls whose effect depends on the
settings carry the settings in force when they were issued. -/
inductive DrawCall where
  | clearRect (x y w h : ℚ)
  | fillRect (ctx : Context2D) (x y w h : ℚ)
  | drawImage (image : Image) (dx dy dw dh : ℚ)
  | strokeText (ctx : Context2D) (text : String) (x y : ℚ)
  | fillText (ctx : Context2D) (text : String) (x y : ℚ)

/-- The `#statusMessage` element. -/
structure StatusMessage where
  textContent : String
  className : String
deriving DecidableEq

/-- A child of `#galleryGrid`: the helper paragraph, or one clone of the
gallery template with the values assigned to it. -/
inductive GridChild where
  | helperText (textContent className : String)
  | item (imgSrc : JSValue) (imgAlt : String) (reuseId downloadId figureId : JSValue)

/-- A clicked download link: its `href` and `download` attributes. -/
structure LinkClick where
  href : JSValue
  download : String

/-- The text stored under `GALLERY_KEY`, kept up to what `JSON.parse` makes of
it: a text it rejects, or a text it reads as the value `v`. -/
inductive StoredItem where
  | unparsable
  | parsable (v : JSValue)

/-- A file chosen in the image input: `dataUrl` is what `readAsDataURL` hands
to `onload`, `none` when reading fails and `onload` never fires. -/
structure File where
  dataUrl : Option String

/-- The object literal of line 213, `{ id, dataUrl, createdAt }`. -/
structure GalleryEntry where
  id : String
  dataUrl : String
  createdAt : ℕ

/-- Everything the script reads and writes. `storageAccepts text` tells whether
`localStorage.setItem` takes `text`; when it does not, `setItem` throws a
`QuotaExceededError` and stores nothing. -/
structure World where
  state : EditState
  canvas : Dimensions
  ctx : Context2D
  calls : List DrawCall
  topTextInput : String
  bottomTextInput : String
  downloadBtnDisabled : Bool
  shareBtnDisabled : Bool
  saveBtnDisabled : Bool
  statusMessage : StatusMessage
  galleryGrid : List GridChild
  localStorage : Option StoredItem
  storageAccepts : StoredItem → Bool
  console : List JSError
  clicks : List LinkClick

/-- Where a function stopped: the world then, and the error it threw, if any. -/
structure Outcome where
  world : World
  thrown : Option JSError

/-! ## Built-ins -/

/-- The built-in `Math.round`: the nearest integer, halves upward. -/
def Math_round (x : ℚ) : ℚ := ((⌊x + 1 / 2⌋ : ℤ) : ℚ)

/-- The integer nearest to `m`, a tie going to the even one. -/
def roundTiesToEven (m : ℚ) : ℤ :=
  if m - ⌊m⌋ < 1 / 2 then ⌊m⌋
  else if 1 / 2 < m - ⌊m⌋ then ⌊m⌋ + 1
  else if ⌊m⌋ % 2 = 0 then ⌊m⌋
  else ⌊m⌋ + 1

/-- The binary64 number nearest to `x`, ties to even: the result of an IEEE 754
division or product whose exact value is `x`. The significand has 53 bits; the
exponent range is not bounded (sizes below 2^32 stay far inside it). -/
def toDouble (x : ℚ) : ℚ :=
  if x = 0 then 0
  else
    let ulp : ℚ := (2 : ℚ) ^ (Int.log 2 |x| - 52)
    (if x < 0 then -1 else 1) * ((roundTiesToEven (|x| / ulp) : ℤ) : ℚ) * ulp

/-- The code points `String.prototype.trim` strips: ECMAScript WhiteSpace and
LineTerminator. -/
def isWhiteSpace (c : Char) : Bool :=
  c.val = 0x09 || c.val = 0x0A || c.val = 0x0B || c.val = 0x0C || c.val = 0x0D ||
  c.val = 0x20 || c.val = 0xA0 || c.val = 0x1680 ||
  (0x2000 ≤ c.val && c.val ≤ 0x200A) ||
  c.val = 0x2028 || c.val = 0x2029 || c.val = 0x202F || c.val = 0x205F ||
  c.val = 0x3000 || c.val = 0xFEFF

/-- The built-in `String.prototype.trim`. -/
def trim (s : String) : String :=
  ⟨((s.data.dropWhile isWhiteSpace).reverse.dropWhile isWhiteSpace).reverse⟩

/-- The built-in `String.prototype.toUpperCase`, on the ASCII letters; other
characters are kept as they are. -/
def toUpperCase (s : String) : String :=
  ⟨s.data.map Char.toUpper⟩

/-- The call `JSON.parse(localStorage.getItem(GALLERY_KEY))`: a missing key is
`null`, which is read as the text `null`. -/
def JSON_parse : Option StoredItem → Except JSError JSValue
  | none => .ok .null
  | some .unparsable => .error .syntaxError
  | some (.parsable v) => .ok v

/-- The call `JSON.stringify(v)` for a value made of JSON data: a text that
`JSON.parse` reads back as `v`. -/
def JSON_stringify (v : JSValue) : StoredItem := .parsable v

/-- The nullish coalescing `v ?? d`. -/
def nullish (v d : JSValue) : JSValue :=
  match v with
  | .undefined => d
  | .null => d
  | _ => v

/-- Truthiness, as tested by `!meme`. -/
def truthy : JSValue → Bool
  | .undefined => false
  | .null => false
  | .boolean b => b
  | .number n => n ≠ 0
  | .string s => s ≠ ""
  | .array _ => true
  | .object _ => true

/-- Length of a string in UTF-16 code units. -/
def utf16Length (s : String) : ℕ :=
  (s.data.map fun c => if c.val < 0x10000 then 1 else 2).sum

/-- Own-property lookup in the fields of an object. -/
def lookupField (key : String) : List (String × JSValue) → JSValue
  | [] => .undefined
  | (k, v) :: rest => if k = key then v else lookupField key rest

/-- Read of a data property, `v.key` or `v[key]` with a non-index key. -/
def getProp (v : JSValue) (key : String) : Except JSError JSValue :=
  match v with
  | .undefined => .error .typeError
  | .null => .error .typeError
  | .object fields => .ok (lookupField key fields)
  | .array items => .ok (if key = "length" then .number items.length else .undefined)
  | .string s => .ok (if key = "length" then .number (utf16Length s) else .undefined)
  | _ => .ok .undefined

/-- Strict equality `v === s` with a string `s`. -/
def strictEqualsString (v : JSValue) (s : String) : Bool :=
  match v with
  | .string t => t = s
  | _ => false

/-- Strict equality `v === n` with a number `n`. -/
def strictEqualsNumber (v : JSValue) (n : ℚ) : Bool :=
  match v with
  | .number m => m = n
  | _ => false

/-- The loop of `items.find((item) => item.id === id)`. -/
def findItem (id : String) : List JSValue → Except JSError JSValue
  | [] => .ok .undefined
  | item :: rest =>
    match getProp item "id" with
    | .error e => .error e
    | .ok v => if strictEqualsString v id then .ok item else findItem id rest

/-- `gallery.find((item) => item.id === id)`: only an array has `find`. -/
def Array_find (gallery : JSValue) (id : String) : Except JSError JSValue :=
  match gallery with
  | .array items => findItem id items
  | _ => .error .typeError

/-- The entry as a value. -/
def GalleryEntry.toJS (e : GalleryEntry) : JSValue :=
  .object [("id", .string e.id), ("dataUrl", .string e.dataUrl),
    ("createdAt", .number e.createdAt)]

/-- The settings of a freshly reset 2D context. -/
def Context2D.initial : Context2D :=
  { fillStyle := "#000000", strokeStyle := "#000000", lineWidth := 1, lineJoin := "miter",
    font := "10px sans-serif", textAlign := "start", textBaseline := "alphabetic" }

/-- One call on `ctx`, appended to the calls issued so far. -/
def issue (c : DrawCall) (w : World) : World :=
  { w with calls := w.calls ++ [c] }

/-- Assignment to `canvas.width` and `canvas.height`: the context is reset. -/
def setCanvasSize (d : Dimensions) (w : World) : World :=
  { w with canvas := { width := d.width, height := d.height }, ctx := Context2D.initial }

/-! ## The script -/

def MAX_CANVAS_SIZE : ℚ := 800

/-- Lines 31-34. -/
def updateStatus (message : String) (type : String) (w : World) : World :=
  { w with statusMessage :=
      { textContent := message,
        className := "status-message" ++ (if type ≠ "" then " " ++ type else "") } }

/-- Lines 36-40. -/
def enableActions (enabled : Bool) (w : World) : World :=
  { w with downloadBtnDisabled := !enabled, shareBtnDisabled := !enabled,
           saveBtnDisabled := !enabled }

/-- Lines 42-51, read in exact arithmetic. -/
def scaleDimensions (d : Dimensions) : Dimensions :=
  if d.width ≤ MAX_CANVAS_SIZE ∧ d.height ≤ MAX_CANVAS_SIZE then
    { width := d.width, height := d.height }
  else
    let ratio := min (MAX_CANVAS_SIZE / d.width) (MAX_CANVAS_SIZE / d.height)
    { width := Math_round (d.width * ratio), height := Math_round (d.height * ratio) }

/-- Lines 42-51 as they run: the two quotients and the two products are each
rounded to binary64; `Math.min` and `Math.round` are exact. -/
def scaleDimensionsDouble (d : Dimensions) : Dimensions :=
  if d.width ≤ MAX_CANVAS_SIZE ∧ d.height ≤ MAX_CANVAS_SIZE then
    { width := d.width, height := d.height }
  else
    let ratio :=
      min (toDouble (MAX_CANVAS_SIZE / d.width)) (toDouble (MAX_CANVAS_SIZE / d.height))
    { width := Math_round (toDouble (d.width * ratio)),
      height := Math_round (toDouble (d.height * ratio)) }

/-- Lines 53-57. -/
def clearCanvas (w : World) : World :=
  let w := issue (.clearRect 0 0 w.canvas.width w.canvas.height) w
  let w := { w with ctx := { w.ctx with fillStyle := "#0f172a" } }
  issue (.fillRect w.ctx 0 0 w.canvas.width w.canvas.height) w

/-- Lines 59-69. -/
def drawTextLine (text : String) (yPosition : ℚ) (w : World) : World :=
  let fontSize := w.state.fontSize
  let w := { w with ctx := { w.ctx with font := toString fontSize ++ "px Impact, \"Anton\", sans-serif" } }
  let w := { w with ctx := { w.ctx with textAlign := "center" } }
  let w := { w with ctx := { w.ctx with fillStyle := w.state.textColor } }
  let w := { w with ctx := { w.ctx with strokeStyle := w.state.outlineColor } }
  let w := { w with ctx := { w.ctx with lineWidth := max ((fontSize : ℚ) * 0.08) 2 } }
  let w := { w with ctx := { w.ctx with lineJoin := "round" } }
  let w := issue (.strokeText w.ctx text (w.canvas.width / 2) yPosition) w
  issue (.fillText w.ctx text (w.canvas.width / 2) yPosition) w

/-- Lines 71-91. -/
def renderMeme (w : World) : World :=
  let w := clearCanvas w
  match w.state.baseImage with
  | none => enableActions false w
  | some image =>
    let w := issue (.drawImage image 0 0 w.canvas.width w.canvas.height) w
    let w := { w with ctx := { w.ctx with textBaseline := "top" } }
    let w :=
      if trim w.state.topText ≠ "" then
        drawTextLine (toUpperCase w.state.topText) ((w.state.fontSize : ℚ) * 0.2) w
      else w
    let w := { w with ctx := { w.ctx with textBaseline := "bottom" } }
    let w :=
      if trim w.state.bottomText ≠ "" then
        drawTextLine (toUpperCase w.state.bottomText)
          (w.canvas.height - (w.state.fontSize : ℚ) * 0.2) w
      else w
    enableActions true w

/-- Lines 93-100: the promise resolves with the image when `decode` yields
one and rejects otherwise. -/
def loadBaseImage (decode : JSValue → Option Image) (dataUrl : JSValue) :
    Except JSError Image :=
  match decode dataUrl with
  | some image => .ok image
  | none => .error .imageError

/-- Lines 129-133. -/
def handleTextUpdate (w : World) : World :=
  let w := { w with state := { w.state with topText := w.topTextInput } }
  let w := { w with state := { w.state with bottomText := w.bottomTextInput } }
  renderMeme w

/-- Lines 102-127, run up to the end of the `onload` handler. -/
def handleImageUpload (decode : JSValue → Option Image) (file : Option File) (w : World) :
    World :=
  match file with
  | none => w
  | some f =>
    match f.dataUrl with
    | none => w
    | some dataUrl =>
      match loadBaseImage decode (.string dataUrl) with
      | .ok image =>
        let d := scaleDimensionsDouble { width := image.width, height := image.height }
        let w := setCanvasSize d w
        let w := { w with state := { w.state with baseImage := some image } }
        let w := { w with state := { w.state with baseImageUrl := .string dataUrl } }
        let w := { w with state := { w.state with topText := w.topTextInput } }
        let w := { w with state := { w.state with bottomText := w.bottomTextInput } }
        let w := renderMeme w
        updateStatus "Image chargée. Ajoutez votre texte." "success" w
      | .error e =>
        let w := { w with console := w.console ++ [e] }
        updateStatus "Impossible de charger cette image." "error" w

/-- Lines 219-225. -/
def loadGallery (w : World) : JSValue :=
  match JSON_parse w.localStorage with
  | .ok v => nullish v (.array [])
  | .error _ => .array []

/-- The body of the `forEach` callback of lines 239-253, over the items in
order; it stops at the first item whose property read throws. -/
def appendItems : List JSValue → World → Outcome
  | [], w => { world := w, thrown := none }
  | item :: rest, w =>
    match getProp item "dataUrl", getProp item "id" with
    | .ok dataUrl, .ok id =>
      appendItems rest
        { w with galleryGrid :=
            w.galleryGrid ++ [.item dataUrl "Mème sauvegardé" id id id] }
    | .error e, _ => { world := w, thrown := some e }
    | _, .error e => { world := w, thrown := some e }

/-- Lines 227-254. -/
def populateGallery (w : World) : Outcome :=
  let gallery := loadGallery w
  let w := { w with galleryGrid := [] }
  match getProp gallery "length" with
  | .error e => { world := w, thrown := some e }
  | .ok len =>
    if strictEqualsNumber len 0 then
      { world :=
          { w with galleryGrid :=
              w.galleryGrid ++ [.helperText "Aucun mème sauvegardé pour le moment." "helper-text"] },
        thrown := none }
    else
      match gallery with
      | .array items => appendItems items w
      | _ => { world := w, thrown := some .typeError }

/-- Lines 210-217. `dataUrl` is the text `canvas.toDataURL` returns, `uuid` the
result of `crypto.randomUUID()`, `now` that of `Date.now()`. When the storage
does not take the text, `setItem` throws and the rest of the function is
skipped. -/
def saveToGallery (dataUrl uuid : String) (now : ℕ) (w : World) : Outcome :=
  match loadGallery w with
  | .array items =>
    let gallery := GalleryEntry.toJS { id := uuid, dataUrl := dataUrl, createdAt := now } :: items
    let text := JSON_stringify (.array (gallery.take 20))
    if w.storageAccepts text then
      let w := { w with localStorage := some text }
      let out := populateGallery w
      match out.thrown with
      | some e => { world := out.world, thrown := some e }
      | none =>
        { world := updateStatus "Mème ajouté à la galerie." "success" out.world, thrown := none }
    else { world := w, thrown := some .quotaExceededError }
  | _ => { world := w, thrown := some .typeError }

/-- Lines 256-280, run up to the settlement of the promise. -/
def reuseMeme (decode : JSValue → Option Image) (id : String) (w : World) : Outcome :=
  let gallery := loadGallery w
  match Array_find gallery id with
  | .error e => { world := w, thrown := some e }
  | .ok meme =>
    if !truthy meme then
      { world := updateStatus "Mème introuvable." "error" w, thrown := none }
    else
      match getProp meme "dataUrl" with
      | .error e => { world := w, thrown := some e }
      | .ok dataUrl =>
        match loadBaseImage decode dataUrl with
        | .ok image =>
          let d := scaleDimensionsDouble { width := image.width, height := image.height }
          let w := setCanvasSize d w
          let w := { w with state := { w.state with baseImage := some image } }
          let w := { w with state := { w.state with baseImageUrl := dataUrl } }
          let w := { w with topTextInput := "" }
          let w := { w with bottomTextInput := "" }
          let w := handleTextUpdate w
          { world := updateStatus "Mème chargé depuis la galerie." "success" w, thrown := none }
        | .error e =>
          let w := { w with console := w.console ++ [e] }
          { world := updateStatus "Impossible de réutiliser ce mème." "error" w, thrown := none }

/-- Lines 282-294. -/
def downloadFromGallery (id : String) (w : World) : Outcome :=
  let gallery := loadGallery w
  match Array_find gallery id with
  | .error e => { world := w, thrown := some e }
  | .ok meme =>
    if !truthy meme then
      { world := updateStatus "Mème introuvable." "error" w, thrown := none }
    else
      match getProp meme "dataUrl" with
      | .error e => { world := w, thrown := some e }
      | .ok dataUrl =>
        let w := { w with clicks := w.clicks ++ [{ href := dataUrl, download := "meme.png" }] }
        { world := updateStatus "Téléchargement lancé." "success" w, thrown := none }

/-! ## Vocabulary of the properties -/

/-- A text that is empty or made of white space only. -/
def isBlank (s : String) : Prop := ∀ c ∈ s.data, isWhiteSpace c = true

/-- The entries saved one after the other, each click of the save button
being its own event: a throw ends that click only. -/
def saveAll : List GalleryEntry → World → World
  | [], w => w
  | e :: rest, w => saveAll rest (saveToGallery e.dataUrl e.id e.createdAt w).world

/-- The settings in force once lines 61-66 have run under the baseline
`baseline`: every field has been assigned. -/
def textSettings (s : EditState) (baseline : String) : Context2D :=
  { fillStyle := s.textColor,
    strokeStyle := s.outlineColor,
    lineWidth := max ((s.fontSize : ℚ) * 0.08) 2,
    lineJoin := "round",
    font := toString s.fontSize ++ "px Impact, \"Anton\", sans-serif",
    textAlign := "center",
    textBaseline := baseline }

/-- The page as the script finds it: no image, empty texts, the default style
controls, a 300 by 150 canvas, nothing stored, a storage with room. -/
def startWorld : World :=
  { state :=
      { baseImage := none, baseImageUrl := .string "", topText := "", bottomText := "",
        fontSize := 36, textColor := "#ffffff", outlineColor := "#000000" },
    canvas := { width := 300, height := 150 },
    ctx := Context2D.initial,
    calls := [],
    topTextInput := "",
    bottomTextInput := "",
    downloadBtnDisabled := true,
    shareBtnDisabled := true,
    saveBtnDisabled := true,
    statusMessage := { textContent := "", className := "status-message" },
    galleryGrid := [],
    localStorage := none,
    storageAccepts := fun _ => true,
    console := [],
    clicks := [] }

/-- A decoded 640 by 480 picture. -/
def samplePicture : Image :=
  { src := .string "data:image/png;base64,AAAA", width := 640, height := 480 }

/-- The page with `samplePicture` loaded and the given two texts. -/
def editingWorld (top bottom : String) : World :=
  { startWorld with
    state := { startWorld.state with
      baseImage := some samplePicture, baseImageUrl := samplePicture.src,
      topText := top, bottomText := bottom },
    canvas := { width := 640, height := 480 },
    topTextInput := top,
    bottomTextInput := bottom }

instance isBlank_decidable (s : String) : Decidable (isBlank s) := by
  unfold isBlank
  infer_instance

/-- The start page with both captions typed in and still no image. -/
def captionedStart : World :=
  { startWorld with
    state := { startWorld.state with topText := "top", bottomText := "bottom" },
    topTextInput := "top",
    bottomTextInput := "bottom" }

/-- A saved entry numbered `i`. -/
def sampleEntry (i : ℕ) : GalleryEntry :=
  { id := "id-" ++ toString i, dataUrl := "data:image/png;base64," ++ toString i,
    createdAt := 1700000000000 + i }

/-- Twenty-one saves, numbered 1 to 21. -/
def sampleSaves : List GalleryEntry :=
  (List.range 21).map fun i => sampleEntry (i + 1)

/-- The start page with the given entries stored, first entry at index 0. -/
def galleryWorld (entries : List GalleryEntry) : World :=
  { startWorld with
    localStorage := some (JSON_stringify (.array (entries.map GalleryEntry.toJS))) }

/-- The start page with the text `{}` stored under the gallery key. -/
def objectStoredWorld : World :=
  { startWorld with localStorage := some (.parsable (.object [])) }

/-- The start page on a storage that takes no text (its quota is used up, or
it is disabled). -/
def fullStorageWorld : World :=
  { startWorld with storageAccepts := fun _ => false }

/-- A decoder for which no source is an image. -/
def neverDecodes : JSValue → Option Image := fun _ => none

/-- One stored entry with identifier `a1`. -/
def storedEntry : GalleryEntry :=
  { id := "a1", dataUrl := "data:image/png;base64,AAAA", createdAt := 1700000000000 }

/-- A chosen file that reads as a data URL. -/
def chosenFile : File :=
  { dataUrl := some "data:image/png;base64,BBBB" }

/-! ## Scaling -/

lemma Math_round_intCast (n : ℤ) : Math_round (n : ℚ) = n := by
  unfold Math_round
  have h : ⌊(n : ℚ) + 1 / 2⌋ = n := by
    rw [Int.floor_eq_iff]
    constructor <;> norm_num
  rw [h]

lemma Math_round_le (x : ℚ) : Math_round x ≤ x + 1 / 2 := by
  unfold Math_round
  exact Int.floor_le _

lemma Math_round_gt (x : ℚ) : x - 1 / 2 < Math_round x := by
  unfold Math_round
  have := Int.lt_floor_add_one (x + 1 / 2)
  linarith

lemma Math_round_abs (x : ℚ) : |Math_round x - x| ≤ 1 / 2 := by
  rw [abs_le]
  constructor
  · have := Math_round_gt x; linarith
  · have := Math_round_le x; linarith

lemma Math_round_mono {x y : ℚ} (h : x ≤ y) : Math_round x ≤ Math_round y := by
  unfold Math_round
  exact_mod_cast Int.floor_mono (by linarith)

lemma Math_round_nearest (x : ℚ) (j : ℤ) : |Math_round x - x| ≤ |(j : ℚ) - x| := by
  have h1 := Math_round_le x
  have h2 := Math_round_gt x
  have hr : Math_round x = ((⌊x + 1 / 2⌋ : ℤ) : ℚ) := rfl
  rcases le_or_lt j ⌊x + 1 / 2⌋ with hj | hj
  · rcases eq_or_lt_of_le hj with hj | hj
    · rw [hr, hj]
    · have : (j : ℚ) + 1 ≤ Math_round x := by
        rw [hr]; exact_mod_cast hj
      rw [abs_le]
      constructor
      · have : (j : ℚ) - x ≤ 0 := by linarith
        rw [abs_of_nonpos this]; linarith
      · have : (j : ℚ) - x ≤ 0 := by linarith
        rw [abs_of_nonpos this]; linarith
  · have : Math_round x + 1 ≤ (j : ℚ) := by
      rw [hr]; exact_mod_cast hj
    have hpos : 0 ≤ (j : ℚ) - x := by linarith
    rw [abs_of_nonneg hpos, abs_le]
    constructor <;> linarith

lemma scaleDimensions_small (d : Dimensions) (h : d.width ≤ 800 ∧ d.height ≤ 800) :
    scaleDimensions d = d := by
  unfold scaleDimensions MAX_CANVAS_SIZE
  rw [if_pos h]

lemma scaleDimensions_wide (w h : ℚ) (hh : 0 < h) (hhw : h ≤ w) (hbig : 800 < w) :
    scaleDimensions ⟨w, h⟩ = ⟨800, Math_round (h * 800 / w)⟩ := by
  have hw : 0 < w := lt_of_lt_of_le hh hhw
  have hnot : ¬ (w ≤ 800 ∧ h ≤ 800) := fun hc => absurd hc.1 (not_le.mpr hbig)
  have hmin : min (800 / w) (800 / h) = 800 / w :=
    min_eq_left (div_le_div_of_nonneg_left (by norm_num) hh hhw)
  unfold scaleDimensions MAX_CANVAS_SIZE
  simp only [if_neg hnot, hmin]
  have e1 : w * (800 / w) = ((800 : ℤ) : ℚ) := by field_simp
  have e2 : h * (800 / w) = h * 800 / w := by ring
  rw [e1, Math_round_intCast, e2]
  norm_num

lemma scaleDimensions_tall (w h : ℚ) (hw : 0 < w) (hwh : w ≤ h) (hbig : 800 < h) :
    scaleDimensions ⟨w, h⟩ = ⟨Math_round (w * 800 / h), 800⟩ := by
  have hh : 0 < h := lt_of_lt_of_le hw hwh
  have hnot : ¬ (w ≤ 800 ∧ h ≤ 800) := fun hc => absurd hc.2 (not_le.mpr hbig)
  have hmin : min (800 / w) (800 / h) = 800 / h :=
    min_eq_right (div_le_div_of_nonneg_left (by norm_num) hw hwh)
  unfold scaleDimensions MAX_CANVAS_SIZE
  simp only [if_neg hnot, hmin]
  have e1 : h * (800 / h) = ((800 : ℤ) : ℚ) := by field_simp
  have e2 : w * (800 / h) = w * 800 / h := by ring
  rw [e1, Math_round_intCast, e2]
  norm_num

lemma Math_round_scaled_le (a b : ℚ) (hb : 0 < b) (hab : a ≤ b) :
    Math_round (a * 800 / b) ≤ 800 := by
  have h1 : a * 800 / b ≤ ((800 : ℤ) : ℚ) := by
    rw [div_le_iff₀ hb]; push_cast; nlinarith
  have := Math_round_mono h1
  rw [Math_round_intCast] at this
  exact_mod_cast this

lemma one_le_Math_round_iff (x : ℚ) : 1 ≤ Math_round x ↔ 1 / 2 ≤ x := by
  unfold Math_round
  have : (1 : ℚ) ≤ ((⌊x + 1 / 2⌋ : ℤ) : ℚ) ↔ (1 : ℤ) ≤ ⌊x + 1 / 2⌋ := by
    exact_mod_cast Iff.rfl
  rw [this, Int.le_floor]
  constructor <;> intro h <;> push_cast at * <;> linarith


/-- C1: for positive integers `w`, `h` and exact arithmetic, `scaleDimensions`
returns the pair unchanged when both are at most 800; otherwise the longer side
becomes exactly 800, the other side is the integer nearest to
shorter * 800 / longer (within 1/2 of it, and no integer is nearer), and
neither side exceeds 800. In particular (1600, 900) gives (800, 450). -/
theorem scaleDimensions_contract (w h : ℕ) (hw : 0 < w) (hh : 0 < h) :
    (w ≤ 800 ∧ h ≤ 800 → scaleDimensions ⟨w, h⟩ = ⟨w, h⟩) ∧
    (¬ (w ≤ 800 ∧ h ≤ 800) →
      (h ≤ w → (scaleDimensions ⟨w, h⟩).width = 800 ∧
        ∃ k : ℤ, (scaleDimensions ⟨w, h⟩).height = k ∧
          |(k : ℚ) - (h : ℚ) * 800 / w| ≤ 1 / 2 ∧
          ∀ j : ℤ, |(k : ℚ) - (h : ℚ) * 800 / w| ≤ |(j : ℚ) - (h : ℚ) * 800 / w|) ∧
      (w ≤ h → (scaleDimensions ⟨w, h⟩).height = 800 ∧
        ∃ k : ℤ, (scaleDimensions ⟨w, h⟩).width = k ∧
          |(k : ℚ) - (w : ℚ) * 800 / h| ≤ 1 / 2 ∧
          ∀ j : ℤ, |(k : ℚ) - (w : ℚ) * 800 / h| ≤ |(j : ℚ) - (w : ℚ) * 800 / h|) ∧
      (scaleDimensions ⟨w, h⟩).width ≤ 800 ∧ (scaleDimensions ⟨w, h⟩).height ≤ 800) ∧
    scaleDimensions ⟨1600, 900⟩ = ⟨800, 450⟩ := by
  have hwq : (0 : ℚ) < w := by exact_mod_cast hw
  have hhq : (0 : ℚ) < h := by exact_mod_cast hh
  refine ⟨?_, ?_, ?_⟩
  · rintro ⟨h1, h2⟩
    apply scaleDimensions_small
    constructor
    · show (w : ℚ) ≤ 800
      exact_mod_cast h1
    · show (h : ℚ) ≤ 800
      exact_mod_cast h2
  · intro hbig
    have wide : h ≤ w → scaleDimensions ⟨w, h⟩ = ⟨800, Math_round ((h : ℚ) * 800 / w)⟩ := by
      intro hle
      have hlt : 800 < w := by omega
      exact scaleDimensions_wide w h hhq (by exact_mod_cast hle) (by exact_mod_cast hlt)
    have tall : w ≤ h → scaleDimensions ⟨w, h⟩ = ⟨Math_round ((w : ℚ) * 800 / h), 800⟩ := by
      intro hle
      have hlt : 800 < h := by omega
      exact scaleDimensions_tall w h hwq (by exact_mod_cast hle) (by exact_mod_cast hlt)
    refine ⟨?_, ?_, ?_⟩
    · intro hle
      rw [wide hle]
      exact ⟨rfl, ⌊(h : ℚ) * 800 / w + 1 / 2⌋, rfl, Math_round_abs _,
        fun j => Math_round_nearest _ j⟩
    · intro hle
      rw [tall hle]
      exact ⟨rfl, ⌊(w : ℚ) * 800 / h + 1 / 2⌋, rfl, Math_round_abs _,
        fun j => Math_round_nearest _ j⟩
    · rcases le_total h w with hle | hle
      · rw [wide hle]
        exact ⟨le_refl _, Math_round_scaled_le _ _ hwq (by exact_mod_cast hle)⟩
      · rw [tall hle]
        exact ⟨Math_round_scaled_le _ _ hhq (by exact_mod_cast hle), le_refl _⟩
  · rw [scaleDimensions_wide 1600 900 (by norm_num) (by norm_num) (by norm_num)]
    simp [Math_round]
    norm_num

/-- The contract of `scaleDimensions` at the size 1601 by 3. -/
theorem scaleDimensions_contract_witness :
    0 < 1601 ∧ 0 < 3 ∧
    ((1601 ≤ 800 ∧ 3 ≤ 800 → scaleDimensions ⟨(1601 : ℕ), (3 : ℕ)⟩ = ⟨(1601 : ℕ), (3 : ℕ)⟩) ∧
    (¬ (1601 ≤ 800 ∧ 3 ≤ 800) →
      (3 ≤ 1601 → (scaleDimensions ⟨(1601 : ℕ), (3 : ℕ)⟩).width = 800 ∧
        ∃ k : ℤ, (scaleDimensions ⟨(1601 : ℕ), (3 : ℕ)⟩).height = k ∧
          |(k : ℚ) - ((3 : ℕ) : ℚ) * 800 / (1601 : ℕ)| ≤ 1 / 2 ∧
          ∀ j : ℤ, |(k : ℚ) - ((3 : ℕ) : ℚ) * 800 / (1601 : ℕ)|
            ≤ |(j : ℚ) - ((3 : ℕ) : ℚ) * 800 / (1601 : ℕ)|) ∧
      (1601 ≤ 3 → (scaleDimensions ⟨(1601 : ℕ), (3 : ℕ)⟩).height = 800 ∧
        ∃ k : ℤ, (scaleDimensions ⟨(1601 : ℕ), (3 : ℕ)⟩).width = k ∧
          |(k : ℚ) - ((1601 : ℕ) : ℚ) * 800 / (3 : ℕ)| ≤ 1 / 2 ∧
          ∀ j : ℤ, |(k : ℚ) - ((1601 : ℕ) : ℚ) * 800 / (3 : ℕ)|
            ≤ |(j : ℚ) - ((1601 : ℕ) : ℚ) * 800 / (3 : ℕ)|) ∧
      (scaleDimensions ⟨(1601 : ℕ), (3 : ℕ)⟩).width ≤ 800 ∧
      (scaleDimensions ⟨(1601 : ℕ), (3 : ℕ)⟩).height ≤ 800) ∧
    scaleDimensions ⟨1600, 900⟩ = ⟨800, 450⟩) :=
  ⟨by decide, by decide, scaleDimensions_contract 1601 3 (by decide) (by decide)⟩

/-! ## Scaling in binary64 -/

lemma roundTiesToEven_abs (m : ℚ) : |((roundTiesToEven m : ℤ) : ℚ) - m| ≤ 1 / 2 := by
  have h1 := Int.floor_le m
  have h2 := Int.lt_floor_add_one m
  unfold roundTiesToEven
  split_ifs with ha hb hc
  · rw [abs_le]; constructor <;> linarith
  · rw [abs_le]; push_cast; constructor <;> linarith
  · rw [abs_le]; constructor <;> linarith
  · rw [abs_le]; push_cast; constructor <;> linarith

lemma roundTiesToEven_eq (m : ℚ) (n : ℤ) (h : |m - n| < 1 / 2) : roundTiesToEven m = n := by
  rw [abs_lt] at h
  have h1 := Int.floor_le m
  have h2 := Int.lt_floor_add_one m
  have hr := roundTiesToEven_abs m
  rw [abs_le] at hr
  have : |((roundTiesToEven m : ℤ) : ℚ) - n| < 1 := by
    rw [abs_lt]; constructor <;> linarith [hr.1, hr.2, h.1, h.2]
  have h3 : |roundTiesToEven m - n| < 1 := by exact_mod_cast this
  have := Int.abs_lt_one_iff.mp h3
  omega

lemma toDouble_pos_eq (x : ℚ) (e : ℤ) (hlo : (2 : ℚ) ^ e ≤ x) (hhi : x < (2 : ℚ) ^ (e + 1)) :
    toDouble x = ((roundTiesToEven (x / (2 : ℚ) ^ (e - 52)) : ℤ) : ℚ) * (2 : ℚ) ^ (e - 52) := by
  have hpos : 0 < x := lt_of_lt_of_le (by positivity) hlo
  have hlog : Int.log 2 x = e := by
    apply le_antisymm
    · have := (Int.lt_zpow_iff_log_lt (by norm_num : 1 < 2) hpos).mp (by exact_mod_cast hhi)
      omega
    · exact (Int.zpow_le_iff_le_log (by norm_num : 1 < 2) hpos).mp (by exact_mod_cast hlo)
  unfold toDouble
  rw [if_neg hpos.ne', abs_of_pos hpos, hlog, if_neg (not_lt.mpr hpos.le)]
  simp


lemma Math_round_eq_of_near (x : ℚ) (n : ℤ) (hlo : (n : ℚ) - 1 / 2 ≤ x) (hhi : x < n + 1 / 2) :
    Math_round x = n := by
  unfold Math_round
  have : ⌊x + 1 / 2⌋ = n := by
    rw [Int.floor_eq_iff]
    constructor <;> linarith
  rw [this]

lemma toDouble_rel (x : ℚ) (hx : 0 < x) :
    x * (1 - 1 / 2 ^ 53) ≤ toDouble x ∧ toDouble x ≤ x * (1 + 1 / 2 ^ 53) := by
  have hlo : (2 : ℚ) ^ (Int.log 2 x) ≤ x := by
    exact_mod_cast Int.zpow_log_le_self (by norm_num : 1 < 2) hx
  have hhi : x < (2 : ℚ) ^ (Int.log 2 x + 1) := by
    exact_mod_cast Int.lt_zpow_succ_log_self (by norm_num : 1 < 2) x
  rw [toDouble_pos_eq x _ hlo hhi]
  set e := Int.log 2 x
  have hulp : (0 : ℚ) < (2 : ℚ) ^ (e - 52) := by positivity
  have hr := roundTiesToEven_abs (x / (2 : ℚ) ^ (e - 52))
  rw [abs_le] at hr
  have hsplit : (2 : ℚ) ^ e = (2 : ℚ) ^ (e - 52) * 2 ^ 52 := by
    rw [← zpow_natCast (2 : ℚ) 52, ← zpow_add₀ (by norm_num : (2 : ℚ) ≠ 0)]
    congr 1
    norm_num
  have hx_eq : x / (2 : ℚ) ^ (e - 52) * (2 : ℚ) ^ (e - 52) = x := by
    field_simp
  have hbound : (2 : ℚ) ^ (e - 52) / 2 ≤ x * (1 / 2 ^ 53) := by
    have : (2 : ℚ) ^ (e - 52) * 2 ^ 52 ≤ x := hsplit ▸ hlo
    have h53 : (2 : ℚ) ^ 53 = 2 * 2 ^ 52 := by norm_num
    rw [h53]
    have h52 : (0 : ℚ) < 2 ^ 52 := by positivity
    rw [mul_one_div, div_le_div_iff₀ (by norm_num) (by positivity)]
    nlinarith
  constructor
  · have := mul_le_mul_of_nonneg_right hr.1 hulp.le
    rw [sub_mul, hx_eq] at this
    linarith
  · have := mul_le_mul_of_nonneg_right hr.2 hulp.le
    rw [sub_mul, hx_eq] at this
    linarith


lemma toDouble_eval (x : ℚ) (e n : ℤ) (hlo : (2 : ℚ) ^ e ≤ x) (hhi : x < (2 : ℚ) ^ (e + 1))
    (hn : |x / (2 : ℚ) ^ (e - 52) - n| < 1 / 2) :
    toDouble x = (n : ℚ) * (2 : ℚ) ^ (e - 52) := by
  rw [toDouble_pos_eq x e hlo hhi, roundTiesToEven_eq _ n hn]

lemma scaleDimensionsDouble_small (d : Dimensions) (h : d.width ≤ 800 ∧ d.height ≤ 800) :
    scaleDimensionsDouble d = d := by
  unfold scaleDimensionsDouble MAX_CANVAS_SIZE
  rw [if_pos h]

lemma scaleDimensionsDouble_swap (w h : ℚ) :
    (scaleDimensionsDouble ⟨h, w⟩).width = (scaleDimensionsDouble ⟨w, h⟩).height ∧
    (scaleDimensionsDouble ⟨h, w⟩).height = (scaleDimensionsDouble ⟨w, h⟩).width := by
  unfold scaleDimensionsDouble
  by_cases hc : w ≤ MAX_CANVAS_SIZE ∧ h ≤ MAX_CANVAS_SIZE
  · rw [if_pos hc, if_pos ⟨hc.2, hc.1⟩]
    exact ⟨rfl, rfl⟩
  · rw [if_neg hc, if_neg (fun hc2 => hc ⟨hc2.2, hc2.1⟩)]
    refine ⟨?_, ?_⟩ <;> simp only [min_comm (toDouble (MAX_CANVAS_SIZE / h))]

lemma scaleDimensionsDouble_wide (w h : ℚ) (hh : 0 < h) (hhw : h ≤ w) (hbig : 800 < w) :
    ∃ t : ℚ, scaleDimensionsDouble ⟨w, h⟩ = ⟨800, Math_round t⟩ ∧
      h * 800 / w * ((1 - 1 / 2 ^ 53) * (1 - 1 / 2 ^ 53)) ≤ t ∧
      t ≤ h * 800 / w * ((1 + 1 / 2 ^ 53) * (1 + 1 / 2 ^ 53)) := by
  have hw : 0 < w := lt_of_lt_of_le hh hhw
  have hnot : ¬ (w ≤ 800 ∧ h ≤ 800) := fun hc => absurd hc.1 (not_le.mpr hbig)
  have ha : 0 < 800 / w := by positivity
  have hb : 0 < 800 / h := by positivity
  have hab : 800 / w ≤ 800 / h := div_le_div_of_nonneg_left (by norm_num) hh hhw
  have hum : (0 : ℚ) < 1 - 1 / 2 ^ 53 := by norm_num
  have hup : (0 : ℚ) < 1 + 1 / 2 ^ 53 := by norm_num
  obtain ⟨ra1, ra2⟩ := toDouble_rel (800 / w) ha
  obtain ⟨rb1, _⟩ := toDouble_rel (800 / h) hb
  set r := min (toDouble (800 / w)) (toDouble (800 / h)) with hr
  have hr_lo : 800 / w * (1 - 1 / 2 ^ 53) ≤ r :=
    le_min ra1 (le_trans (mul_le_mul_of_nonneg_right hab hum.le) rb1)
  have hr_hi : r ≤ 800 / w * (1 + 1 / 2 ^ 53) := le_trans (min_le_left _ _) ra2
  have hr_pos : 0 < r := lt_of_lt_of_le (mul_pos ha hum) hr_lo
  have hwa : w * (800 / w) = 800 := by field_simp
  have hha : h * (800 / w) = h * 800 / w := by ring
  obtain ⟨rw1, rw2⟩ := toDouble_rel (w * r) (mul_pos hw hr_pos)
  obtain ⟨rh1, rh2⟩ := toDouble_rel (h * r) (mul_pos hh hr_pos)
  have hwr_lo : 800 * (1 - 1 / 2 ^ 53) ≤ w * r := by
    have := mul_le_mul_of_nonneg_left hr_lo hw.le
    rw [← mul_assoc, hwa] at this
    exact this
  have hwr_hi : w * r ≤ 800 * (1 + 1 / 2 ^ 53) := by
    have := mul_le_mul_of_nonneg_left hr_hi hw.le
    rw [← mul_assoc, hwa] at this
    exact this
  have hhr_lo : h * 800 / w * (1 - 1 / 2 ^ 53) ≤ h * r := by
    have := mul_le_mul_of_nonneg_left hr_lo hh.le
    rw [← mul_assoc, hha] at this
    exact this
  have hhr_hi : h * r ≤ h * 800 / w * (1 + 1 / 2 ^ 53) := by
    have := mul_le_mul_of_nonneg_left hr_hi hh.le
    rw [← mul_assoc, hha] at this
    exact this
  have hwidth : Math_round (toDouble (w * r)) = ((800 : ℤ) : ℚ) := by
    apply Math_round_eq_of_near
    · have h1 := mul_le_mul_of_nonneg_right hwr_lo hum.le
      have : (((800 : ℤ) : ℚ)) - 1 / 2 ≤ 800 * (1 - 1 / 2 ^ 53) * (1 - 1 / 2 ^ 53) := by norm_num
      linarith
    · have h1 := mul_le_mul_of_nonneg_right hwr_hi hup.le
      have : 800 * (1 + 1 / 2 ^ 53) * (1 + 1 / 2 ^ 53) < (((800 : ℤ) : ℚ)) + 1 / 2 := by norm_num
      linarith
  refine ⟨toDouble (h * r), ?_, ?_, ?_⟩
  · unfold scaleDimensionsDouble MAX_CANVAS_SIZE
    simp only [if_neg hnot]
    rw [← hr, hwidth]
    norm_num
  · have h1 := mul_le_mul_of_nonneg_right hhr_lo hum.le
    rw [mul_assoc] at h1
    linarith
  · have h1 := mul_le_mul_of_nonneg_right hhr_hi hup.le
    rw [mul_assoc] at h1
    linarith

/-- Wide sizes, in naturals below 2^32: the height is 0 above the ratio 1600
and at least 1 below it; the width is 800. -/
lemma scaleDimensionsDouble_wide_nat (w h : ℕ) (hh : 0 < h) (hhw : h ≤ w) (hbig : 800 < w)
    (hhb : h < 2 ^ 32) :
    (scaleDimensionsDouble ⟨w, h⟩).width = 800 ∧
    (1600 * h < w → (scaleDimensionsDouble ⟨w, h⟩).height = 0) ∧
    (w < 1600 * h → 1 ≤ (scaleDimensionsDouble ⟨w, h⟩).height) := by
  have hhq : (0 : ℚ) < h := by exact_mod_cast hh
  have hwq : (0 : ℚ) < w := lt_of_lt_of_le hhq (by exact_mod_cast hhw)
  have hhbq : (h : ℚ) < 2 ^ 32 := by exact_mod_cast hhb
  obtain ⟨t, ht, hlo, hhi⟩ :=
    scaleDimensionsDouble_wide w h hhq (by exact_mod_cast hhw) (by exact_mod_cast hbig)
  rw [ht]
  refine ⟨rfl, ?_, ?_⟩
  · intro habove
    have hw1 : (1600 : ℚ) * h + 1 ≤ w := by exact_mod_cast habove
    have hc : ((1 : ℚ) + 1 / 2 ^ 53) * (1 + 1 / 2 ^ 53) ≤ 1 + 1 / 2 ^ 51 := by norm_num
    have hfrac : (0 : ℚ) ≤ (h : ℚ) * 800 / w := by positivity
    have ht_hi : t ≤ (h : ℚ) * 800 / w * (1 + 1 / 2 ^ 51) :=
      le_trans hhi (mul_le_mul_of_nonneg_left hc hfrac)
    have ht_lo : 0 ≤ t := le_trans (by positivity) hlo
    have hlt : (h : ℚ) * 800 / w * (1 + 1 / 2 ^ 51) < 1 / 2 := by
      rw [div_mul_eq_mul_div, div_lt_iff₀ hwq]
      have : (h : ℚ) * 1600 / 2 ^ 51 < 1 := by
        rw [div_lt_iff₀ (by positivity)]
        nlinarith
      nlinarith
    have : Math_round t = ((0 : ℤ) : ℚ) := by
      apply Math_round_eq_of_near
      · push_cast; linarith
      · push_cast; linarith
    show Math_round t = 0
    rw [this]
    norm_num
  · intro hbelow
    have hw1 : (w : ℚ) + 1 ≤ 1600 * h := by exact_mod_cast hbelow
    have hc : (1 : ℚ) - 1 / 2 ^ 52 ≤ (1 - 1 / 2 ^ 53) * (1 - 1 / 2 ^ 53) := by norm_num
    have hfrac : (0 : ℚ) ≤ (h : ℚ) * 800 / w := by positivity
    have ht_lo : (h : ℚ) * 800 / w * (1 - 1 / 2 ^ 52) ≤ t :=
      le_trans (mul_le_mul_of_nonneg_left hc hfrac) hlo
    have hge : 1 / 2 ≤ (h : ℚ) * 800 / w * (1 - 1 / 2 ^ 52) := by
      rw [div_mul_eq_mul_div, le_div_iff₀ hwq]
      have : (h : ℚ) * 1600 / 2 ^ 52 < 1 := by
        rw [div_lt_iff₀ (by positivity)]
        nlinarith
      nlinarith
    show 1 ≤ Math_round t
    rw [one_le_Math_round_iff]
    linarith


lemma toDouble_800_div_78400 :
    toDouble (800 / 78400) = 5882252574524729 / 2 ^ 59 := by
  rw [toDouble_eval (800 / 78400) (-7) 5882252574524729 (by norm_num) (by norm_num)
    (by rw [abs_lt]; constructor <;> norm_num)]
  norm_num

lemma toDouble_800_div_49 :
    toDouble (800 / 49) = 4595509823847445 / 2 ^ 48 := by
  rw [toDouble_eval (800 / 49) 4 4595509823847445 (by norm_num) (by norm_num)
    (by rw [abs_lt]; constructor <;> norm_num)]
  norm_num

lemma toDouble_49_mul_ratio :
    toDouble (49 * (5882252574524729 / 2 ^ 59)) = 9007199254740991 / 2 ^ 54 := by
  rw [toDouble_eval (49 * (5882252574524729 / 2 ^ 59)) (-2) 9007199254740991
    (by norm_num) (by norm_num) (by rw [abs_lt]; constructor <;> norm_num)]
  norm_num

lemma scaleDimensionsDouble_78400_49_height :
    (scaleDimensionsDouble ⟨78400, 49⟩).height = 0 := by
  have hnot : ¬ ((78400 : ℚ) ≤ 800 ∧ (49 : ℚ) ≤ 800) := by norm_num
  unfold scaleDimensionsDouble MAX_CANVAS_SIZE
  simp only [if_neg hnot]
  rw [toDouble_800_div_78400, toDouble_800_div_49]
  have hmin : min ((5882252574524729 : ℚ) / 2 ^ 59) (4595509823847445 / 2 ^ 48)
      = 5882252574524729 / 2 ^ 59 := min_eq_left (by norm_num)
  rw [hmin, toDouble_49_mul_ratio]
  have : Math_round (9007199254740991 / 2 ^ 54) = ((0 : ℤ) : ℚ) := by
    apply Math_round_eq_of_near <;> norm_num
  rw [this]
  norm_num

lemma scaleDimensionsDouble_1600_1_height :
    (scaleDimensionsDouble ⟨1600, 1⟩).height = 1 := by
  have hnot : ¬ ((1600 : ℚ) ≤ 800 ∧ (1 : ℚ) ≤ 800) := by norm_num
  have e1 : toDouble (800 / 1600) = 1 / 2 := by
    rw [toDouble_eval (800 / 1600) (-1) (2 ^ 52) (by norm_num) (by norm_num)
      (by rw [abs_lt]; constructor <;> norm_num)]
    norm_num
  have e2 : toDouble (800 / 1) = 800 := by
    rw [toDouble_eval (800 / 1) 9 7036874417766400 (by norm_num) (by norm_num)
      (by rw [abs_lt]; constructor <;> norm_num)]
    norm_num
  have e3 : toDouble (1 * (1 / 2)) = 1 / 2 := by
    rw [toDouble_eval (1 * (1 / 2)) (-1) (2 ^ 52) (by norm_num) (by norm_num)
      (by rw [abs_lt]; constructor <;> norm_num)]
    norm_num
  unfold scaleDimensionsDouble MAX_CANVAS_SIZE
  simp only [if_neg hnot]
  rw [e1, e2]
  have hmin : min ((1 : ℚ) / 2) 800 = 1 / 2 := min_eq_left (by norm_num)
  rw [hmin, e3]
  have : Math_round (1 / 2) = ((1 : ℤ) : ℚ) := by
    apply Math_round_eq_of_near <;> norm_num
  rw [this]
  norm_num


/-- C10, amended: in binary64, for positive integers `w`, `h` below 2^32 whose
ratio is not exactly 1600, both sides returned are at least 1 exactly when
max(w, h) <= 1600 * min(w, h), and above the ratio 1600 a side is 0. At the
ratio 1600 itself the rounding decides: 1600 by 1 keeps height 1, 78400 by 49
gets height 0. The size 1601 by 1 gets height 0. -/
theorem scaleDimensionsDouble_positive (w h : ℕ) (hw : 0 < w) (hh : 0 < h)
    (hwb : w < 2 ^ 32) (hhb : h < 2 ^ 32) :
    (max w h ≠ 1600 * min w h →
      ((1 ≤ (scaleDimensionsDouble ⟨w, h⟩).width ∧ 1 ≤ (scaleDimensionsDouble ⟨w, h⟩).height)
        ↔ max w h ≤ 1600 * min w h)) ∧
    (1600 * min w h < max w h →
      (scaleDimensionsDouble ⟨w, h⟩).width = 0 ∨ (scaleDimensionsDouble ⟨w, h⟩).height = 0) ∧
    (scaleDimensionsDouble ⟨1601, 1⟩).height = 0 ∧
    (scaleDimensionsDouble ⟨1600, 1⟩).height = 1 ∧
    (scaleDimensionsDouble ⟨78400, 49⟩).height = 0 := by
  refine ⟨?_, ?_, ?_, scaleDimensionsDouble_1600_1_height,
    scaleDimensionsDouble_78400_49_height⟩
  · intro hne
    by_cases hsmall : w ≤ 800 ∧ h ≤ 800
    · have e : scaleDimensionsDouble ⟨w, h⟩ = ⟨w, h⟩ := by
        apply scaleDimensionsDouble_small
        exact ⟨by show (w : ℚ) ≤ 800; exact_mod_cast hsmall.1,
          by show (h : ℚ) ≤ 800; exact_mod_cast hsmall.2⟩
      rw [e]
      constructor
      · intro _
        have h1 : max w h ≤ 800 := max_le hsmall.1 hsmall.2
        have h2 : 1 ≤ min w h := le_min hw hh
        omega
      · intro _
        exact ⟨by show (1 : ℚ) ≤ (w : ℚ); exact_mod_cast hw,
          by show (1 : ℚ) ≤ (h : ℚ); exact_mod_cast hh⟩
    · rcases le_total h w with hle | hle
      · have hlt : 800 < w := by omega
        obtain ⟨hwidth, hzero, hone⟩ := scaleDimensionsDouble_wide_nat w h hh hle hlt hhb
        rw [max_eq_left hle, min_eq_right hle] at hne ⊢
        rw [hwidth]
        constructor
        · rintro ⟨_, h2⟩
          by_contra hgt
          rw [hzero (by omega)] at h2
          norm_num at h2
        · intro h2
          exact ⟨by norm_num, hone (by omega)⟩
      · have hlt : 800 < h := by omega
        obtain ⟨hwidth, hzero, hone⟩ := scaleDimensionsDouble_wide_nat h w hw hle hlt hwb
        obtain ⟨s1, s2⟩ := scaleDimensionsDouble_swap (h : ℚ) (w : ℚ)
        rw [max_eq_right hle, min_eq_left hle] at hne ⊢
        rw [s1, s2, hwidth]
        constructor
        · rintro ⟨h2, _⟩
          by_contra hgt
          rw [hzero (by omega)] at h2
          norm_num at h2
        · intro h2
          exact ⟨hone (by omega), by norm_num⟩
  · intro hgt
    rcases le_total h w with hle | hle
    · rw [max_eq_left hle, min_eq_right hle] at hgt
      have hlt : 800 < w := by omega
      exact Or.inr ((scaleDimensionsDouble_wide_nat w h hh hle hlt hhb).2.1 hgt)
    · rw [max_eq_right hle, min_eq_left hle] at hgt
      have hlt : 800 < h := by omega
      obtain ⟨s1, _⟩ := scaleDimensionsDouble_swap (h : ℚ) (w : ℚ)
      rw [s1]
      exact Or.inl ((scaleDimensionsDouble_wide_nat h w hw hle hlt hwb).2.1 hgt)
  · have := (scaleDimensionsDouble_wide_nat 1601 1 (by norm_num) (by norm_num) (by norm_num)
      (by norm_num)).2.1 (by norm_num)
    simpa using this

/-- The amended C10 at the size 1601 by 3. -/
theorem scaleDimensionsDouble_positive_witness :
    0 < 1601 ∧ 0 < 3 ∧ 1601 < 2 ^ 32 ∧ 3 < 2 ^ 32 ∧ max 1601 3 ≠ 1600 * min 1601 3 ∧
    ((1 ≤ (scaleDimensionsDouble ⟨(1601 : ℕ), (3 : ℕ)⟩).width ∧
        1 ≤ (scaleDimensionsDouble ⟨(1601 : ℕ), (3 : ℕ)⟩).height)
      ↔ max 1601 3 ≤ 1600 * min 1601 3) :=
  ⟨by decide, by decide, by decide, by decide, by decide,
    (scaleDimensionsDouble_positive 1601 3 (by decide) (by decide) (by decide) (by decide)).1
      (by decide)⟩

/-- C10 as stated fails on the code: 78400 by 49 has ratio exactly 1600, so
max <= 1600 * min holds, yet the height returned is 0. -/
theorem scaleDimensionsDouble_boundary_zero :
    max 78400 49 ≤ 1600 * min 78400 49 ∧
    (scaleDimensionsDouble ⟨78400, 49⟩).height = 0 ∧
    ¬ ((1 ≤ (scaleDimensionsDouble ⟨78400, 49⟩).width ∧
          1 ≤ (scaleDimensionsDouble ⟨78400, 49⟩).height)
        ↔ max 78400 49 ≤ 1600 * min 78400 49) := by
  refine ⟨by decide, scaleDimensionsDouble_78400_49_height, ?_⟩
  intro hiff
  have h2 := (hiff.mpr (by decide)).2
  rw [scaleDimensionsDouble_78400_49_height] at h2
  norm_num at h2

/-! ## Text helpers -/

lemma trim_of_isBlank {s : String} (h : isBlank s) : trim s = "" := by
  have h1 : s.data.dropWhile isWhiteSpace = [] := List.dropWhile_eq_nil_iff.mpr h
  unfold trim
  rw [h1]
  rfl

lemma trim_ne_empty_of_not_isBlank {s : String} (h : ¬ isBlank s) : trim s ≠ "" := by
  unfold isBlank at h
  push_neg at h
  obtain ⟨c, hc, hws⟩ := h
  have h1 : s.data.dropWhile isWhiteSpace ≠ [] := by
    intro hnil
    exact hws (List.dropWhile_eq_nil_iff.mp hnil c hc)
  have h2 : isWhiteSpace ((s.data.dropWhile isWhiteSpace).head h1) = false := by
    simpa using List.head_dropWhile_not isWhiteSpace s.data h1
  have h3 : (s.data.dropWhile isWhiteSpace).reverse.dropWhile isWhiteSpace ≠ [] := by
    intro hnil
    have := List.dropWhile_eq_nil_iff.mp hnil ((s.data.dropWhile isWhiteSpace).head h1)
      (List.mem_reverse.mpr (List.head_mem h1))
    rw [h2] at this
    exact Bool.noConfusion this
  intro hempty
  unfold trim at hempty
  have h4 := congrArg String.data hempty
  simp only [List.reverse_eq_nil_iff] at h4
  exact h3 h4

lemma trim_eq_empty_iff (s : String) : trim s = "" ↔ isBlank s := by
  constructor
  · intro h
    by_contra hb
    exact trim_ne_empty_of_not_isBlank hb h
  · exact trim_of_isBlank

/-! ## Rendering -/

lemma drawTextLine_calls (text : String) (y : ℚ) (w : World) :
    (drawTextLine text y w).calls = w.calls ++
      [.strokeText (textSettings w.state w.ctx.textBaseline) text (w.canvas.width / 2) y,
       .fillText (textSettings w.state w.ctx.textBaseline) text (w.canvas.width / 2) y] := by
  simp [drawTextLine, issue, textSettings]

lemma renderMeme_calls_none (w : World) (h : w.state.baseImage = none) :
    (renderMeme w).calls = w.calls ++
      [.clearRect 0 0 w.canvas.width w.canvas.height,
       .fillRect { w.ctx with fillStyle := "#0f172a" } 0 0 w.canvas.width w.canvas.height] := by
  simp [renderMeme, clearCanvas, issue, enableActions, h]

lemma renderMeme_calls_some (w : World) (image : Image) (h : w.state.baseImage = some image) :
    (renderMeme w).calls = w.calls ++
      [.clearRect 0 0 w.canvas.width w.canvas.height,
       .fillRect { w.ctx with fillStyle := "#0f172a" } 0 0 w.canvas.width w.canvas.height,
       .drawImage image 0 0 w.canvas.width w.canvas.height] ++
      (if trim w.state.topText ≠ "" then
        [.strokeText (textSettings w.state "top") (toUpperCase w.state.topText)
           (w.canvas.width / 2) ((w.state.fontSize : ℚ) * 0.2),
         .fillText (textSettings w.state "top") (toUpperCase w.state.topText)
           (w.canvas.width / 2) ((w.state.fontSize : ℚ) * 0.2)]
       else []) ++
      (if trim w.state.bottomText ≠ "" then
        [.strokeText (textSettings w.state "bottom") (toUpperCase w.state.bottomText)
           (w.canvas.width / 2) (w.canvas.height - (w.state.fontSize : ℚ) * 0.2),
         .fillText (textSettings w.state "bottom") (toUpperCase w.state.bottomText)
           (w.canvas.width / 2) (w.canvas.height - (w.state.fontSize : ℚ) * 0.2)]
       else []) := by
  by_cases ht : trim w.state.topText = "" <;> by_cases hb : trim w.state.bottomText = "" <;>
    simp [renderMeme, clearCanvas, issue, enableActions, drawTextLine, textSettings, h, ht, hb]

/-! ## Gallery helpers -/

lemma loadGallery_congr {w1 w2 : World} (h : w1.localStorage = w2.localStorage) :
    loadGallery w1 = loadGallery w2 := by
  unfold loadGallery
  rw [h]

lemma appendItems_localStorage (items : List JSValue) (w : World) :
    (appendItems items w).world.localStorage = w.localStorage := by
  induction items generalizing w with
  | nil => rfl
  | cons item rest ih =>
    unfold appendItems
    split
    · rw [ih]
    · rfl
    · rfl

lemma appendItems_storageAccepts (items : List JSValue) (w : World) :
    (appendItems items w).world.storageAccepts = w.storageAccepts := by
  induction items generalizing w with
  | nil => rfl
  | cons item rest ih =>
    unfold appendItems
    split
    · rw [ih]
    · rfl
    · rfl

lemma populateGallery_localStorage (w : World) :
    (populateGallery w).world.localStorage = w.localStorage := by
  unfold populateGallery
  simp only
  split
  · rfl
  · split
    · rfl
    · split
      · rw [appendItems_localStorage]
      · rfl

lemma populateGallery_storageAccepts (w : World) :
    (populateGallery w).world.storageAccepts = w.storageAccepts := by
  unfold populateGallery
  simp only
  split
  · rfl
  · split
    · rfl
    · split
      · rw [appendItems_storageAccepts]
      · rfl

lemma saveToGallery_localStorage (dataUrl uuid : String) (now : ℕ) (w : World)
    (items : List JSValue) (h : loadGallery w = .array items)
    (hacc : w.storageAccepts (.parsable (.array
      ((GalleryEntry.toJS { id := uuid, dataUrl := dataUrl, createdAt := now } :: items).take 20)))
      = true) :
    (saveToGallery dataUrl uuid now w).world.localStorage =
      some (.parsable (.array
        ((GalleryEntry.toJS { id := uuid, dataUrl := dataUrl, createdAt := now } :: items).take 20))) := by
  unfold saveToGallery
  rw [h]
  simp only [JSON_stringify, hacc, if_true]
  split
  · rw [populateGallery_localStorage]
  · simp only [updateStatus]
    rw [populateGallery_localStorage]

lemma saveToGallery_storageAccepts (dataUrl uuid : String) (now : ℕ) (w : World) :
    (saveToGallery dataUrl uuid now w).world.storageAccepts = w.storageAccepts := by
  unfold saveToGallery
  split
  · simp only
    split
    · split
      · rw [populateGallery_storageAccepts]
      · simp only [updateStatus]
        rw [populateGallery_storageAccepts]
    · rfl
  · rfl

lemma saveToGallery_refused (dataUrl uuid : String) (now : ℕ) (w : World)
    (items : List JSValue) (h : loadGallery w = .array items)
    (hfull : ∀ text, w.storageAccepts text = false) :
    saveToGallery dataUrl uuid now w = { world := w, thrown := some .quotaExceededError } := by
  unfold saveToGallery
  rw [h]
  simp [hfull]

lemma loadGallery_parsable (w : World) (items : List JSValue)
    (h : w.localStorage = some (.parsable (.array items))) :
    loadGallery w = .array items := by
  unfold loadGallery
  rw [h]
  rfl

lemma take_append_take {α : Type} (n : ℕ) (xs ys : List α) :
    (xs ++ ys.take n).take n = (xs ++ ys).take n := by
  rw [List.take_append_eq_append_take, List.take_append_eq_append_take, List.take_take]
  congr 2
  omega

lemma saveAll_localStorage (saves : List GalleryEntry) (hne : saves ≠ []) (w : World)
    (items : List JSValue) (h : loadGallery w = .array items)
    (hacc : ∀ text, w.storageAccepts text = true) :
    (saveAll saves w).localStorage =
      some (.parsable (.array (((saves.reverse.map GalleryEntry.toJS) ++ items).take 20))) := by
  induction saves generalizing w items with
  | nil => exact absurd rfl hne
  | cons e rest ih =>
    have hsave := saveToGallery_localStorage e.dataUrl e.id e.createdAt w items h (hacc _)
    have hacc2 : ∀ text,
        (saveToGallery e.dataUrl e.id e.createdAt w).world.storageAccepts text = true := by
      intro text
      rw [saveToGallery_storageAccepts]
      exact hacc text
    by_cases hrest : rest = []
    · subst hrest
      simpa [saveAll] using hsave
    · rw [saveAll, ih hrest _ _ (loadGallery_parsable _ _ hsave) hacc2, take_append_take]
      simp

lemma saveAll_refused (saves : List GalleryEntry) (w : World) (items : List JSValue)
    (h : loadGallery w = .array items) (hfull : ∀ text, w.storageAccepts text = false) :
    saveAll saves w = w := by
  induction saves with
  | nil => rfl
  | cons e rest ih =>
    rw [saveAll, saveToGallery_refused _ _ _ w items h hfull]
    exact ih

lemma findItem_miss (id : String) (entries : List GalleryEntry)
    (h : ∀ e ∈ entries, e.id ≠ id) :
    findItem id (entries.map GalleryEntry.toJS) = .ok .undefined := by
  induction entries with
  | nil => rfl
  | cons e rest ih =>
    have he : e.id ≠ id := h e (List.mem_cons_self _ _)
    have hrest := ih (fun x hx => h x (List.mem_cons_of_mem _ hx))
    simp [findItem, getProp, GalleryEntry.toJS, lookupField, strictEqualsString, he]
    simpa [GalleryEntry.toJS] using hrest

lemma toJS_injective_id {a b : GalleryEntry} (h : a.toJS = b.toJS) : a.id = b.id := by
  simp [GalleryEntry.toJS] at h
  exact h.1

/-! ## Claims on rendering -/

/-- C4: with `baseImage` null, whatever the two texts and the style are,
`renderMeme` issues exactly two calls, the clear of the whole surface and its
fill with colour `#0f172a`; it issues no `drawImage`, `strokeText` or
`fillText`, and the calls are the same under any other texts and style. -/
theorem renderMeme_null_image (w : World) (h : w.state.baseImage = none) :
    (renderMeme w).calls = w.calls ++
      [.clearRect 0 0 w.canvas.width w.canvas.height,
       .fillRect { w.ctx with fillStyle := "#0f172a" } 0 0 w.canvas.width w.canvas.height] ∧
    (∀ (top bottom : String) (fontSize : ℤ) (textColor outlineColor : String),
      (renderMeme { w with state := { w.state with
          topText := top, bottomText := bottom, fontSize := fontSize,
          textColor := textColor, outlineColor := outlineColor } }).calls
        = (renderMeme w).calls) := by
  refine ⟨renderMeme_calls_none w h, ?_⟩
  intro top bottom fontSize textColor outlineColor
  rw [renderMeme_calls_none w h, renderMeme_calls_none _ (by simpa using h)]

/-- The start page with both captions typed and no image. -/
theorem renderMeme_null_image_witness :
    captionedStart.state.baseImage = none ∧
    (renderMeme captionedStart).calls = captionedStart.calls ++
      [.clearRect 0 0 captionedStart.canvas.width captionedStart.canvas.height,
       .fillRect { captionedStart.ctx with fillStyle := "#0f172a" } 0 0
         captionedStart.canvas.width captionedStart.canvas.height] :=
  ⟨rfl, (renderMeme_null_image captionedStart rfl).1⟩

/-- C5: with an image set, a caption that is empty or white space only is not
drawn. When both are blank the calls are the clear, the fill and the image
draw; when the top one is blank the only text calls are those of the bottom
caption, and the other way round. -/
theorem renderMeme_blank_caption (w : World) (image : Image)
    (h : w.state.baseImage = some image) :
    (isBlank w.state.topText → isBlank w.state.bottomText →
      (renderMeme w).calls = w.calls ++
        [.clearRect 0 0 w.canvas.width w.canvas.height,
         .fillRect { w.ctx with fillStyle := "#0f172a" } 0 0 w.canvas.width w.canvas.height,
         .drawImage image 0 0 w.canvas.width w.canvas.height]) ∧
    (isBlank w.state.topText →
      (renderMeme w).calls = w.calls ++
        [.clearRect 0 0 w.canvas.width w.canvas.height,
         .fillRect { w.ctx with fillStyle := "#0f172a" } 0 0 w.canvas.width w.canvas.height,
         .drawImage image 0 0 w.canvas.width w.canvas.height] ++
        (if isBlank w.state.bottomText then []
         else
          [.strokeText (textSettings w.state "bottom") (toUpperCase w.state.bottomText)
             (w.canvas.width / 2) (w.canvas.height - (w.state.fontSize : ℚ) * 0.2),
           .fillText (textSettings w.state "bottom") (toUpperCase w.state.bottomText)
             (w.canvas.width / 2) (w.canvas.height - (w.state.fontSize : ℚ) * 0.2)])) ∧
    (isBlank w.state.bottomText →
      (renderMeme w).calls = w.calls ++
        [.clearRect 0 0 w.canvas.width w.canvas.height,
         .fillRect { w.ctx with fillStyle := "#0f172a" } 0 0 w.canvas.width w.canvas.height,
         .drawImage image 0 0 w.canvas.width w.canvas.height] ++
        (if isBlank w.state.topText then []
         else
          [.strokeText (textSettings w.state "top") (toUpperCase w.state.topText)
             (w.canvas.width / 2) ((w.state.fontSize : ℚ) * 0.2),
           .fillText (textSettings w.state "top") (toUpperCase w.state.topText)
             (w.canvas.width / 2) ((w.state.fontSize : ℚ) * 0.2)])) := by
  have key := renderMeme_calls_some w image h
  refine ⟨?_, ?_, ?_⟩
  · intro ht hb
    rw [key]
    simp [trim_of_isBlank ht, trim_of_isBlank hb]
  · intro ht
    rw [key]
    by_cases hb : isBlank w.state.bottomText
    · simp [trim_of_isBlank ht, trim_of_isBlank hb, hb]
    · simp [trim_of_isBlank ht, trim_ne_empty_of_not_isBlank hb, hb]
  · intro hb
    rw [key]
    by_cases ht : isBlank w.state.topText
    · simp [trim_of_isBlank ht, trim_of_isBlank hb, ht]
    · simp [trim_of_isBlank hb, trim_ne_empty_of_not_isBlank ht, ht]

/-- A page with a picture, a blank top caption and an empty bottom one. -/
theorem renderMeme_blank_caption_witness :
    (editingWorld " \t " "").state.baseImage = some samplePicture ∧
    isBlank (editingWorld " \t " "").state.topText ∧
    isBlank (editingWorld " \t " "").state.bottomText ∧
    (renderMeme (editingWorld " \t " "")).calls = (editingWorld " \t " "").calls ++
      [.clearRect 0 0 (editingWorld " \t " "").canvas.width (editingWorld " \t " "").canvas.height,
       .fillRect { (editingWorld " \t " "").ctx with fillStyle := "#0f172a" } 0 0
         (editingWorld " \t " "").canvas.width (editingWorld " \t " "").canvas.height,
       .drawImage samplePicture 0 0
         (editingWorld " \t " "").canvas.width (editingWorld " \t " "").canvas.height] :=
  ⟨rfl, by decide, by decide,
    (renderMeme_blank_caption (editingWorld " \t " "") samplePicture rfl).1
      (by decide) (by decide)⟩

/-- C6, amended: with an image set, top text `" hello "` and bottom text `""`,
`renderMeme` draws the upper-cased text as it stands, `" HELLO "` with its two
spaces, as one text line at the top (x = width / 2, baseline `top`,
y = fontSize * 0.2: a stroke, then a fill) and no text line at the bottom. -/
theorem renderMeme_hello (w : World) (image : Image)
    (h : w.state.baseImage = some image)
    (htop : w.state.topText = " hello ") (hbottom : w.state.bottomText = "") :
    (renderMeme w).calls = w.calls ++
      [.clearRect 0 0 w.canvas.width w.canvas.height,
       .fillRect { w.ctx with fillStyle := "#0f172a" } 0 0 w.canvas.width w.canvas.height,
       .drawImage image 0 0 w.canvas.width w.canvas.height,
       .strokeText (textSettings w.state "top") " HELLO "
         (w.canvas.width / 2) ((w.state.fontSize : ℚ) * 0.2),
       .fillText (textSettings w.state "top") " HELLO "
         (w.canvas.width / 2) ((w.state.fontSize : ℚ) * 0.2)] ∧
    (textSettings w.state "top").textBaseline = "top" := by
  have e1 : trim " hello " ≠ "" := by decide
  have e2 : trim "" = "" := by decide
  have e3 : toUpperCase " hello " = " HELLO " := by decide
  refine ⟨?_, rfl⟩
  rw [renderMeme_calls_some w image h, htop, hbottom]
  simp [e1, e2, e3]

/-- The page with the sample picture and top text " hello ". -/
theorem renderMeme_hello_witness :
    (editingWorld " hello " "").state.baseImage = some samplePicture ∧
    (editingWorld " hello " "").state.topText = " hello " ∧
    (editingWorld " hello " "").state.bottomText = "" ∧
    (renderMeme (editingWorld " hello " "")).calls = (editingWorld " hello " "").calls ++
      [.clearRect 0 0 (editingWorld " hello " "").canvas.width
         (editingWorld " hello " "").canvas.height,
       .fillRect { (editingWorld " hello " "").ctx with fillStyle := "#0f172a" } 0 0
         (editingWorld " hello " "").canvas.width (editingWorld " hello " "").canvas.height,
       .drawImage samplePicture 0 0 (editingWorld " hello " "").canvas.width
         (editingWorld " hello " "").canvas.height,
       .strokeText (textSettings (editingWorld " hello " "").state "top") " HELLO "
         ((editingWorld " hello " "").canvas.width / 2)
         (((editingWorld " hello " "").state.fontSize : ℚ) * 0.2),
       .fillText (textSettings (editingWorld " hello " "").state "top") " HELLO "
         ((editingWorld " hello " "").canvas.width / 2)
         (((editingWorld " hello " "").state.fontSize : ℚ) * 0.2)] :=
  ⟨rfl, rfl, rfl, (renderMeme_hello (editingWorld " hello " "") samplePicture rfl rfl rfl).1⟩

/-- C6 as stated fails: on the page with the sample picture, top text
`" hello "` and bottom text `""`, no call of `renderMeme` draws the string
`"HELLO"`; the text drawn is `" HELLO "`. -/
theorem renderMeme_hello_keeps_spaces :
    (¬ ∃ ctx x y, DrawCall.strokeText ctx "HELLO" x y ∈ (renderMeme (editingWorld " hello " "")).calls) ∧
    (¬ ∃ ctx x y, DrawCall.fillText ctx "HELLO" x y ∈ (renderMeme (editingWorld " hello " "")).calls) ∧
    (∃ ctx x y, DrawCall.strokeText ctx " HELLO " x y ∈ (renderMeme (editingWorld " hello " "")).calls) ∧
    (∃ ctx x y, DrawCall.fillText ctx " HELLO " x y ∈ (renderMeme (editingWorld " hello " "")).calls) := by
  have e1 : trim " hello " ≠ "" := by decide
  have e2 : trim "" = "" := by decide
  have e3 : toUpperCase " hello " = " HELLO " := by decide
  have e4 : " HELLO " ≠ "HELLO" := by decide
  have key := renderMeme_calls_some (editingWorld " hello " "") samplePicture rfl
  have ht : (editingWorld " hello " "").state.topText = " hello " := rfl
  have hb : (editingWorld " hello " "").state.bottomText = "" := rfl
  have hc : (editingWorld " hello " "").calls = [] := rfl
  rw [ht, hb, hc] at key
  simp only [e1, e2, e3, ne_eq, not_false_eq_true, not_true_eq_false, if_true, if_false,
    List.append_nil, List.nil_append] at key
  rw [key]
  refine ⟨?_, ?_, ?_, ?_⟩
  · rintro ⟨ctx, x, y, hmem⟩
    simp [e4] at hmem
  · rintro ⟨ctx, x, y, hmem⟩
    simp [e4] at hmem
  · exact ⟨textSettings (editingWorld " hello " "").state "top",
      (editingWorld " hello " "").canvas.width / 2,
      ((editingWorld " hello " "").state.fontSize : ℚ) * 0.2, by simp⟩
  · exact ⟨textSettings (editingWorld " hello " "").state "top",
      (editingWorld " hello " "").canvas.width / 2,
      ((editingWorld " hello " "").state.fontSize : ℚ) * 0.2, by simp⟩

/-- C7: `drawTextLine` issues exactly two text calls with the same string at
the same point (width / 2, y): first `strokeText` under the outline colour,
line width max(fontSize * 0.08, 2) and round joins, then `fillText` under the
text colour (the two calls share their settings). For a non-blank bottom text
these are the last two calls of `renderMeme`, with the upper-cased text at
y = height - fontSize * 0.2 under baseline `bottom`. -/
theorem drawTextLine_stroke_then_fill (w : World) (image : Image)
    (h : w.state.baseImage = some image) (hb : ¬ isBlank w.state.bottomText) :
    (∀ (text : String) (y : ℚ) (v : World), ∃ c : Context2D,
      (drawTextLine text y v).calls = v.calls ++
        [.strokeText c text (v.canvas.width / 2) y, .fillText c text (v.canvas.width / 2) y] ∧
      c.strokeStyle = v.state.outlineColor ∧
      c.lineWidth = max ((v.state.fontSize : ℚ) * 0.08) 2 ∧
      c.lineJoin = "round" ∧
      c.fillStyle = v.state.textColor ∧
      c.textAlign = "center" ∧
      c.textBaseline = v.ctx.textBaseline) ∧
    (∃ (before : List DrawCall) (c : Context2D),
      (renderMeme w).calls = before ++
        [.strokeText c (toUpperCase w.state.bottomText) (w.canvas.width / 2)
           (w.canvas.height - (w.state.fontSize : ℚ) * 0.2),
         .fillText c (toUpperCase w.state.bottomText) (w.canvas.width / 2)
           (w.canvas.height - (w.state.fontSize : ℚ) * 0.2)] ∧
      c.textBaseline = "bottom" ∧
      c.strokeStyle = w.state.outlineColor ∧
      c.lineWidth = max ((w.state.fontSize : ℚ) * 0.08) 2 ∧
      c.lineJoin = "round" ∧
      c.fillStyle = w.state.textColor) := by
  constructor
  · intro text y v
    exact ⟨textSettings v.state v.ctx.textBaseline, drawTextLine_calls text y v,
      rfl, rfl, rfl, rfl, rfl, rfl⟩
  · rw [renderMeme_calls_some w image h, if_pos (trim_ne_empty_of_not_isBlank hb)]
    exact ⟨_, textSettings w.state "bottom", rfl, rfl, rfl, rfl, rfl, rfl⟩

/-- The page with the sample picture and a bottom caption. -/
theorem drawTextLine_stroke_then_fill_witness :
    (editingWorld "" "bottom").state.baseImage = some samplePicture ∧
    ¬ isBlank (editingWorld "" "bottom").state.bottomText ∧
    (∃ (before : List DrawCall) (c : Context2D),
      (renderMeme (editingWorld "" "bottom")).calls = before ++
        [.strokeText c (toUpperCase (editingWorld "" "bottom").state.bottomText)
           ((editingWorld "" "bottom").canvas.width / 2)
           ((editingWorld "" "bottom").canvas.height -
             ((editingWorld "" "bottom").state.fontSize : ℚ) * 0.2),
         .fillText c (toUpperCase (editingWorld "" "bottom").state.bottomText)
           ((editingWorld "" "bottom").canvas.width / 2)
           ((editingWorld "" "bottom").canvas.height -
             ((editingWorld "" "bottom").state.fontSize : ℚ) * 0.2)] ∧
      c.textBaseline = "bottom" ∧
      c.strokeStyle = (editingWorld "" "bottom").state.outlineColor ∧
      c.lineWidth = max (((editingWorld "" "bottom").state.fontSize : ℚ) * 0.08) 2 ∧
      c.lineJoin = "round" ∧
      c.fillStyle = (editingWorld "" "bottom").state.textColor) :=
  ⟨rfl, by decide,
    (drawTextLine_stroke_then_fill (editingWorld "" "bottom") samplePicture rfl (by decide)).2⟩

/-! ## Claims on the gallery -/

lemma status_error_className :
    "status-message" ++ (if "error" ≠ "" then " " ++ "error" else "") = "status-message error" := by
  decide

/-- C2, amended: whenever the storage takes the text written, one save
persists the new entry at index 0, then the entries stored before in their
order, cut to 20, and `loadGallery` reads that list back. From an empty
gallery, more than 20 saves leave exactly the last 20 saves, newest first;
with 21 saves index 0 holds the 21st, index 19 the 2nd, and the 1st is gone. -/
theorem saveToGallery_newest_first (w : World) (items : List JSValue) (e : GalleryEntry)
    (saves : List GalleryEntry) (hload : loadGallery w = .array items)
    (hacc : ∀ text, w.storageAccepts text = true) :
    ((saveToGallery e.dataUrl e.id e.createdAt w).world.localStorage =
        some (.parsable (.array ((e.toJS :: items).take 20))) ∧
      loadGallery (saveToGallery e.dataUrl e.id e.createdAt w).world =
        .array ((e.toJS :: items).take 20)) ∧
    (items = [] → 20 < saves.length →
      (saveAll saves w).localStorage = some (.parsable (.array
        ((saves.drop (saves.length - 20)).reverse.map GalleryEntry.toJS))) ∧
      loadGallery (saveAll saves w) =
        .array ((saves.drop (saves.length - 20)).reverse.map GalleryEntry.toJS) ∧
      ((saves.drop (saves.length - 20)).reverse.map GalleryEntry.toJS).length = 20) ∧
    (items = [] → saves.length = 21 →
      ∀ first second newest : GalleryEntry,
        saves[0]? = some first → saves[1]? = some second → saves[20]? = some newest →
        ∃ stored : List JSValue,
          (saveAll saves w).localStorage = some (.parsable (.array stored)) ∧
          loadGallery (saveAll saves w) = .array stored ∧
          stored.length = 20 ∧
          stored[0]? = some newest.toJS ∧
          stored[19]? = some second.toJS ∧
          ((saves.map GalleryEntry.id).Nodup → first.toJS ∉ stored)) := by
  have many : items = [] → 20 < saves.length →
      (saveAll saves w).localStorage = some (.parsable (.array
        ((saves.drop (saves.length - 20)).reverse.map GalleryEntry.toJS))) := by
    intro hitems hlen
    subst hitems
    have hne : saves ≠ [] := by
      intro hnil
      rw [hnil] at hlen
      simp at hlen
    rw [saveAll_localStorage saves hne w [] hload hacc, List.append_nil, ← List.map_take,
      List.take_reverse]
  have one := saveToGallery_localStorage e.dataUrl e.id e.createdAt w items hload (hacc _)
  refine ⟨⟨one, loadGallery_parsable _ _ one⟩, ?_, ?_⟩
  · intro hitems hlen
    refine ⟨many hitems hlen, loadGallery_parsable _ _ (many hitems hlen), ?_⟩
    simp only [List.length_map, List.length_reverse, List.length_drop]
    omega
  · intro hitems hlen first second newest hfirst hsecond hnewest
    have hstored := many hitems (by omega)
    rw [hlen] at hstored
    cases saves with
    | nil => simp at hlen
    | cons a t =>
      have ht : t.length = 20 := by simpa using hlen
      simp only [List.getElem?_cons_zero, Option.some.injEq] at hfirst
      simp only [List.getElem?_cons_succ] at hsecond hnewest
      subst hfirst
      have hst : (saveAll (a :: t) w).localStorage =
          some (.parsable (.array (t.reverse.map GalleryEntry.toJS))) := by
        simpa using hstored
      refine ⟨t.reverse.map GalleryEntry.toJS, hst, loadGallery_parsable _ _ hst,
        by simp [ht], ?_, ?_, ?_⟩
      · rw [List.getElem?_map, List.getElem?_reverse (by omega), ht, hnewest]
        rfl
      · rw [List.getElem?_map, List.getElem?_reverse (by omega), ht, hsecond]
        rfl
      · intro hnodup hmem
        rw [List.map_cons, List.nodup_cons] at hnodup
        obtain ⟨x, hx, hxe⟩ := List.mem_map.mp hmem
        have hid : x.id = a.id := toJS_injective_id hxe
        apply hnodup.1
        rw [← hid]
        exact List.mem_map_of_mem _ (List.mem_reverse.mp hx)

/-- Twenty-one saves from the start page, on a storage with room. -/
theorem saveToGallery_newest_first_witness :
    loadGallery startWorld = .array [] ∧
    (∀ text, startWorld.storageAccepts text = true) ∧
    20 < sampleSaves.length ∧
    (saveAll sampleSaves startWorld).localStorage = some (.parsable (.array
      ((sampleSaves.drop (sampleSaves.length - 20)).reverse.map GalleryEntry.toJS))) ∧
    loadGallery (saveAll sampleSaves startWorld) =
      .array ((sampleSaves.drop (sampleSaves.length - 20)).reverse.map GalleryEntry.toJS) ∧
    ((sampleSaves.drop (sampleSaves.length - 20)).reverse.map GalleryEntry.toJS).length = 20 :=
  ⟨rfl, fun _ => rfl, by decide,
    (saveToGallery_newest_first startWorld [] storedEntry sampleSaves rfl (fun _ => rfl)).2.1
      rfl (by decide)⟩

/-- C2 as stated fails: on a storage that takes no text, `setItem` throws, so
a save from the empty gallery persists nothing, and after the 21 sample saves
the persisted list is still empty instead of holding 20 entries. -/
theorem saveToGallery_quota_exceeded :
    loadGallery fullStorageWorld = .array [] ∧
    (saveToGallery storedEntry.dataUrl storedEntry.id storedEntry.createdAt
      fullStorageWorld).thrown = some .quotaExceededError ∧
    loadGallery (saveToGallery storedEntry.dataUrl storedEntry.id storedEntry.createdAt
      fullStorageWorld).world = .array [] ∧
    sampleSaves.length = 21 ∧
    loadGallery (saveAll sampleSaves fullStorageWorld) = .array [] := by
  have hfull : ∀ text, fullStorageWorld.storageAccepts text = false := fun _ => rfl
  have hempty : loadGallery fullStorageWorld = .array [] := rfl
  refine ⟨hempty, ?_, ?_, by decide, ?_⟩
  · rw [saveToGallery_refused _ _ _ fullStorageWorld [] hempty hfull]
  · rw [saveToGallery_refused _ _ _ fullStorageWorld [] hempty hfull]
    exact hempty
  · rw [saveAll_refused sampleSaves fullStorageWorld [] hempty hfull]
    exact hempty

/-- C3, what the code does on a stored text that parses to a non-array: with
the text `{}` under the gallery key `loadGallery` hands back the parsed object,
not the empty list; `populateGallery` and `saveToGallery` then throw a
`TypeError` on it. -/
theorem loadGallery_keeps_parsed_object :
    loadGallery objectStoredWorld = .object [] ∧
    loadGallery objectStoredWorld ≠ .array [] ∧
    (populateGallery objectStoredWorld).thrown = some .typeError ∧
    (saveToGallery "data:image/png;base64,AAAA" "a1" 1700000000000 objectStoredWorld).thrown
      = some .typeError := by
  refine ⟨rfl, ?_, rfl, rfl⟩
  intro h
  have h2 : loadGallery objectStoredWorld = .object [] := rfl
  rw [h2] at h
  cases h

/-- The part of C3 the code keeps: a missing key, a text that does not parse
and the text `null` all load as the empty list. -/
lemma loadGallery_empty_cases (w : World)
    (h : w.localStorage = none ∨ w.localStorage = some .unparsable ∨
      w.localStorage = some (.parsable .null)) :
    loadGallery w = .array [] := by
  unfold loadGallery
  rcases h with h | h | h <;> rw [h] <;> rfl

/-- C8: when the stored list is empty or holds no entry with the given id,
`reuseMeme` and `downloadFromGallery` do not throw and change nothing but the
status, set to "Mème introuvable." with class `error`: edit state, canvas size
and stored gallery are as before. -/
theorem lookup_miss_reports_not_found (decode : JSValue → Option Image) (id : String)
    (w : World) (entries : List GalleryEntry)
    (hstored : loadGallery w = .array (entries.map GalleryEntry.toJS))
    (hmiss : ∀ e ∈ entries, e.id ≠ id) :
    reuseMeme decode id w =
      { world := { w with statusMessage :=
          { textContent := "Mème introuvable.", className := "status-message error" } },
        thrown := none } ∧
    downloadFromGallery id w =
      { world := { w with statusMessage :=
          { textContent := "Mème introuvable.", className := "status-message error" } },
        thrown := none } ∧
    (reuseMeme decode id w).world.state = w.state ∧
    (reuseMeme decode id w).world.canvas = w.canvas ∧
    (reuseMeme decode id w).world.localStorage = w.localStorage ∧
    (downloadFromGallery id w).world.state = w.state ∧
    (downloadFromGallery id w).world.canvas = w.canvas ∧
    (downloadFromGallery id w).world.localStorage = w.localStorage := by
  have hfind : Array_find (loadGallery w) id = .ok .undefined := by
    rw [hstored]
    exact findItem_miss id entries hmiss
  have h1 : reuseMeme decode id w =
      { world := { w with statusMessage :=
          { textContent := "Mème introuvable.", className := "status-message error" } },
        thrown := none } := by
    unfold reuseMeme
    simp only [hfind, truthy, updateStatus, status_error_className]
    rfl
  have h2 : downloadFromGallery id w =
      { world := { w with statusMessage :=
          { textContent := "Mème introuvable.", className := "status-message error" } },
        thrown := none } := by
    unfold downloadFromGallery
    simp only [hfind, truthy, updateStatus, status_error_className]
    rfl
  refine ⟨h1, h2, ?_, ?_, ?_, ?_, ?_, ?_⟩ <;> simp only [h1, h2]

/-- A lookup of an id that the one stored entry does not have. -/
theorem lookup_miss_reports_not_found_witness :
    loadGallery (galleryWorld [storedEntry]) = .array ([storedEntry].map GalleryEntry.toJS) ∧
    (∀ e ∈ [storedEntry], e.id ≠ "zz") ∧
    reuseMeme neverDecodes "zz" (galleryWorld [storedEntry]) =
      { world := { galleryWorld [storedEntry] with statusMessage :=
          { textContent := "Mème introuvable.", className := "status-message error" } },
        thrown := none } :=
  ⟨rfl, by decide,
    (lookup_miss_reports_not_found neverDecodes "zz" (galleryWorld [storedEntry]) [storedEntry]
      rfl (by decide)).1⟩

/-- C9: when the image does not decode, `handleImageUpload` and `reuseMeme`
each log the error and set an error status, and nothing else changes: the edit
state (image, url, texts, style) and the canvas size are as before. The upload
half holds on every page, whatever the gallery holds. -/
theorem decode_failure_keeps_state (decode : JSValue → Option Image) :
    (∀ (w : World) (f : File) (url : String),
      f.dataUrl = some url → decode (.string url) = none →
      handleImageUpload decode (some f) w =
        { w with
          console := w.console ++ [.imageError],
          statusMessage :=
            { textContent := "Impossible de charger cette image.",
              className := "status-message error" } } ∧
      (handleImageUpload decode (some f) w).state = w.state ∧
      (handleImageUpload decode (some f) w).canvas = w.canvas) ∧
    (∀ (w : World) (id : String) (meme dataUrl : JSValue),
      Array_find (loadGallery w) id = .ok meme → truthy meme = true →
      getProp meme "dataUrl" = .ok dataUrl → decode dataUrl = none →
      reuseMeme decode id w =
        { world := { w with
            console := w.console ++ [.imageError],
            statusMessage :=
              { textContent := "Impossible de réutiliser ce mème.",
                className := "status-message error" } },
          thrown := none } ∧
      (reuseMeme decode id w).world.state = w.state ∧
      (reuseMeme decode id w).world.canvas = w.canvas) := by
  constructor
  · intro w f url hfile hupload
    have h1 : handleImageUpload decode (some f) w =
        { w with
          console := w.console ++ [.imageError],
          statusMessage :=
            { textContent := "Impossible de charger cette image.",
              className := "status-message error" } } := by
      unfold handleImageUpload
      simp only [hfile, loadBaseImage, hupload, updateStatus, status_error_className]
    refine ⟨h1, ?_, ?_⟩ <;> simp only [h1]
  · intro w id meme dataUrl hfound htruthy hurl hreuse
    have h2 : reuseMeme decode id w =
        { world := { w with
            console := w.console ++ [.imageError],
            statusMessage :=
              { textContent := "Impossible de réutiliser ce mème.",
                className := "status-message error" } },
          thrown := none } := by
      unfold reuseMeme
      simp only [hfound, htruthy, hurl, loadBaseImage, hreuse, updateStatus,
        status_error_className]
      rfl
    refine ⟨h2, ?_, ?_⟩ <;> simp only [h2]

lemma storedEntry_found :
    Array_find (loadGallery (galleryWorld [storedEntry])) "a1" = .ok storedEntry.toJS := by
  simp [galleryWorld, loadGallery, JSON_parse, JSON_stringify, nullish, Array_find, findItem,
    getProp, GalleryEntry.toJS, lookupField, strictEqualsString, storedEntry]

lemma storedEntry_dataUrl :
    getProp storedEntry.toJS "dataUrl" = .ok (.string storedEntry.dataUrl) := by
  simp [getProp, GalleryEntry.toJS, lookupField]

/-- A first upload that fails on the start page, whose gallery is empty, and a
reuse of the one stored entry, under a decoder that refuses every source. -/
theorem decode_failure_keeps_state_witness :
    (chosenFile.dataUrl = some "data:image/png;base64,BBBB" ∧
      neverDecodes (.string "data:image/png;base64,BBBB") = none ∧
      loadGallery startWorld = .array [] ∧
      (handleImageUpload neverDecodes (some chosenFile) startWorld).state = startWorld.state ∧
      (handleImageUpload neverDecodes (some chosenFile) startWorld).canvas
        = startWorld.canvas) ∧
    (Array_find (loadGallery (galleryWorld [storedEntry])) "a1" = .ok storedEntry.toJS ∧
      truthy storedEntry.toJS = true ∧
      getProp storedEntry.toJS "dataUrl" = .ok (.string storedEntry.dataUrl) ∧
      neverDecodes (.string storedEntry.dataUrl) = none ∧
      (reuseMeme neverDecodes "a1" (galleryWorld [storedEntry])).world.state
        = (galleryWorld [storedEntry]).state ∧
      (reuseMeme neverDecodes "a1" (galleryWorld [storedEntry])).world.canvas
        = (galleryWorld [storedEntry]).canvas) :=
  ⟨⟨rfl, rfl, rfl,
      ((decode_failure_keeps_state neverDecodes).1 startWorld chosenFile
        "data:image/png;base64,BBBB" rfl rfl).2⟩,
    ⟨storedEntry_found, rfl, storedEntry_dataUrl, rfl,
      ((decode_failure_keeps_state neverDecodes).2 (galleryWorld [storedEntry]) "a1"
        storedEntry.toJS (.string storedEntry.dataUrl)
        storedEntry_found rfl storedEntry_dataUrl rfl).2⟩⟩

end MemeGenerator
